import Mathlib

/-!
Verification of the runeshell broker core against its specification.

We shallowly embed the Go source: byte slices and Go strings that carry
session ids become `List Nat` byte sequences, the hub registry becomes an
association list from agent id to agent record, and each handler of the
read loops becomes a pure function from the relevant state to the new
state together with the list of emitted effects (messages written to
links, links closed).
-/

namespace Runeshell

/-- Byte sequences (Go `[]byte` and the byte view of Go strings). -/
abbrev Bytes := List Nat

/-! ## Mux frame codec (internal/muxframe/muxframe.go) -/

/-- Function `Encode` of muxframe.go: emits the 2-byte big-endian session-id
length, the session-id bytes, then the payload; fails (`none`) when the
session id is empty or longer than 0xFFFF bytes. -/
def Encode (sessionID : Bytes) (payload : Bytes) : Option Bytes :=
  if sessionID.length = 0 then none
  else if sessionID.length > 0xFFFF then none
  else some ([sessionID.length / 256, sessionID.length % 256] ++ sessionID ++ payload)

/-- Function `Decode` of muxframe.go: reads the 2-byte big-endian session-id
length, fails when the frame is shorter than 2 bytes, when fewer than the
declared number of bytes remain, or when the resulting session id is
empty. -/
def Decode : Bytes → Option (Bytes × Bytes)
  | b0 :: b1 :: rest =>
    let sidLen := b0 * 256 + b1
    if rest.length < sidLen then none
    else
      let sessionID := rest.take sidLen
      let payload := rest.drop sidLen
      if sessionID = [] then none else some (sessionID, payload)
  | _ => none

/-! ## Hub data model (internal/hub hub.go)

Connections are identified by numeric ids; closing a link is recorded as
an effect.  `clientState` carries the fields of the Go struct plus the
numeric id of its connection. -/

/-- The `clientState` struct of hub.go (`conn` modelled by a numeric id). -/
structure ClientRec where
  id : String
  connId : Nat
  proto : Nat
  session : Bytes
deriving DecidableEq, Repr

/-- The `agentState` struct of hub.go (`conn` modelled by a numeric id;
the `clients` map modelled as a list keyed by `ClientRec.id`). -/
structure AgentRec where
  id : String
  connId : Nat
  clients : List ClientRec
  writer : String
  write : Bool
  sess : Bytes
deriving DecidableEq, Repr

/-- The mutable registry part of the `Hub` struct: the `agents` map,
modelled as an association list from agent id to record. -/
structure HubSt where
  agents : List (String × AgentRec)
deriving DecidableEq, Repr

/-- Struct `Claims`: the fields the client loop consults. -/
structure Claims where
  agentID : String
  sessionID : Bytes
  write : Bool
deriving DecidableEq, Repr

/-- Control messages emitted by the handlers (the fields the claims
mention of the Go `ControlMessage` struct). -/
structure CtrlMsg where
  type : String
  code : String := ""
  message : String := ""
  write : Bool := false
deriving DecidableEq, Repr

/-- Effects of a handler step: JSON sent back on the requesting client's
link, JSON sent to some client by id, bytes written to a client link,
bytes written to the agent link. -/
inductive Out where
  | toRequester (m : CtrlMsg)
  | toClient (cid : String) (m : CtrlMsg)
  | bytesToClient (cid : String) (b : Bytes)
  | bytesToAgent (b : Bytes)
deriving DecidableEq, Repr

def emptyHub : HubSt := ⟨[]⟩

/-- Go map read `h.agents[agentID]`. -/
def findAgent (h : HubSt) (aid : String) : Option AgentRec :=
  (h.agents.find? (fun p => p.1 = aid)).map (·.2)

/-- Apply `f` to the record stored under `aid` (no-op when absent);
models the in-place mutations done through the `*agentState` pointer. -/
def updAgent (h : HubSt) (aid : String) (f : AgentRec → AgentRec) : HubSt :=
  ⟨h.agents.map fun p => if p.1 = aid then (p.1, f p.2) else p⟩

/-- Go map write `h.agents[agentID] = state` (insert or overwrite). -/
def putAgent (h : HubSt) (aid : String) (s : AgentRec) : HubSt :=
  ⟨(aid, s) :: h.agents.filter (fun p => ¬ p.1 = aid)⟩

/-- Method `Hub.registerAgent`: stores a fresh record (writable, no clients, no
writer) under the agent id, overwriting any prior record.  The second
component lists the connection ids closed by the call: the source closes
none. -/
def registerAgent (h : HubSt) (aid : String) (connId : Nat) : HubSt × List Nat :=
  (putAgent h aid ⟨aid, connId, [], "", true, []⟩, [])

/-- Method `Hub.unregisterAgent`: a no-op unless the stored record still holds
this very connection; otherwise closes the links of all clients of the
record and deletes it.  The second component lists the connection ids
closed. -/
def unregisterAgent (h : HubSt) (aid : String) (connId : Nat) : HubSt × List Nat :=
  match findAgent h aid with
  | none => (h, [])
  | some s =>
    if s.connId ≠ connId then (h, [])
    else (⟨h.agents.filter (fun p => ¬ p.1 = aid)⟩, s.clients.map (·.connId))

/-- Go map write `state.clients[client.id] = client` (insert or
overwrite within one agent record). -/
def putClient (cs : List ClientRec) (c : ClientRec) : List ClientRec :=
  c :: cs.filter (fun d => ¬ d.id = c.id)

/-- Method `Hub.addClient`: false when the agent record is absent. -/
def addClient (h : HubSt) (aid : String) (c : ClientRec) : HubSt × Bool :=
  match findAgent h aid with
  | none => (h, false)
  | some _ => (updAgent h aid (fun s => { s with clients := putClient s.clients c }), true)

/-- Method `Hub.removeClient`: deletes the client from the record; when it held
the writer slot the slot is cleared and `true` is returned. -/
def removeClient (h : HubSt) (aid cid : String) : HubSt × Bool :=
  match findAgent h aid with
  | none => (h, false)
  | some s =>
    if s.writer = cid then
      (updAgent h aid (fun s => { s with clients := s.clients.filter (fun d => ¬ d.id = cid),
                                         writer := "" }), true)
    else
      (updAgent h aid (fun s => { s with clients := s.clients.filter (fun d => ¬ d.id = cid) }), false)

/-- Method `Hub.clientSnapshot`: the clients of the record (empty when absent). -/
def clientSnapshot (h : HubSt) (aid : String) : List ClientRec :=
  match findAgent h aid with
  | none => []
  | some s => s.clients

/-- Method `Hub.setSession`. -/
def setSession (h : HubSt) (aid : String) (sid : Bytes) : HubSt :=
  updAgent h aid (fun s => { s with sess := sid })

/-- Method `Hub.isWriter`. -/
def isWriter (h : HubSt) (aid cid : String) : Bool :=
  match findAgent h aid with
  | none => false
  | some s => s.writer = cid ∧ cid ≠ ""

/-- Method `Hub.hasWriter`. -/
def hasWriter (h : HubSt) (aid : String) : Bool :=
  match findAgent h aid with
  | none => false
  | some s => s.writer ≠ ""

/-- Method `Hub.setWriter`. -/
def setWriter (h : HubSt) (aid cid : String) : HubSt :=
  updAgent h aid (fun s => { s with writer := cid })

/-- Method `Hub.clearWriter`. -/
def clearWriter (h : HubSt) (aid : String) : HubSt :=
  updAgent h aid (fun s => { s with writer := "" })

/-- Method `Hub.webWritable`. -/
def webWritable (h : HubSt) (aid : String) : Bool :=
  match findAgent h aid with
  | none => false
  | some s => s.write

/-- Method `Hub.setWebWritable`: false when the record is absent or its session
hint is non-empty and differs from `sid`; otherwise sets the flag. -/
def setWebWritable (h : HubSt) (aid : String) (sid : Bytes) (enabled : Bool) : HubSt × Bool :=
  match findAgent h aid with
  | none => (h, false)
  | some s =>
    if s.sess ≠ [] ∧ s.sess ≠ sid then (h, false)
    else (updAgent h aid (fun s => { s with write := enabled }), true)

/-- Method `Hub.broadcastWriteStatus`: snapshot the clients, read the writer,
send each client a `write_status` whose `write` bit is `id == writer`. -/
def broadcastWriteStatus (h : HubSt) (aid : String) : List Out :=
  let clients := clientSnapshot h aid
  let writer := match findAgent h aid with
    | none => ""
    | some s => s.writer
  clients.map fun c => Out.toClient c.id { type := "write_status", write := c.id = writer }

/-! ## Client-loop handlers (Hub.ServeClientConn) -/

/-- Loop-local state of one client connection in `ServeClientConn`:
the `focusActive` and `activeSession` variables. -/
structure ClientLoop where
  focusActive : Bool
  activeSession : Bytes
deriving DecidableEq, Repr

/-- The `request_write` case of the client loop (hub.go lines 389–403):
three denial gates in order, then `setWriter` followed by
`broadcastWriteStatus`. -/
def handleRequestWrite (h : HubSt) (aid cid : String) (claimsWrite : Bool) :
    HubSt × List Out :=
  if ¬ claimsWrite then
    (h, [Out.toRequester { type := "write_denied", code := "not_authorized",
                           message := "not authorized for write" }])
  else if ¬ webWritable h aid then
    (h, [Out.toRequester { type := "write_denied", code := "locked",
                           message := "web input locked" }])
  else if hasWriter h aid ∧ ¬ isWriter h aid cid then
    (h, [Out.toRequester { type := "write_denied", code := "another_writer",
                           message := "another writer active" }])
  else
    let h' := setWriter h aid cid
    (h', broadcastWriteStatus h' aid)

/-- The `focus` case of the client loop (hub.go lines 433–438): the
branch touches only the `focusActive` local; the hub state is untouched
and nothing is written to any link. -/
def handleFocusMsg (h : HubSt) (ls : ClientLoop) (state : String) :
    HubSt × ClientLoop × List Out :=
  if state = "on" then (h, { ls with focusActive := true }, [])
  else if state = "off" then (h, { ls with focusActive := false }, [])
  else (h, ls, [])

/-- The binary-message case of the client loop (hub.go lines 444–473):
gate on claims/focus/web-writable/writer, then frame (protocol 1) or
decode–check–re-encode (protocol 2).  Returns the frame written to the
agent link, or `none` when the input is dropped. -/
def handleClientBinary (h : HubSt) (aid cid : String) (claims : Claims)
    (ls : ClientLoop) (proto : Nat) (data : Bytes) : Option Bytes :=
  if ¬ claims.write then none
  else if ¬ ls.focusActive ∨ ¬ webWritable h aid then none
  else if ¬ isWriter h aid cid then none
  else if proto < 2 then
    Encode claims.sessionID data
  else
    match Decode data with
    | none => none
    | some (sid, payload) =>
      if sid ≠ ls.activeSession then none
      else Encode sid payload

/-! ## Agent-loop handler (Hub.ServeAgentConn) -/

/-- Per-client fan-out rule of the agent binary case (hub.go lines
254–263): protocol < 2 clients get the bare payload, filtered by their
claim session; protocol ≥ 2 clients get the framed bytes verbatim. -/
def fanoutClient (sid payload data : Bytes) (c : ClientRec) : Option Out :=
  if c.proto < 2 then
    if c.session ≠ [] ∧ sid ≠ c.session then none
    else some (Out.bytesToClient c.id payload)
  else some (Out.bytesToClient c.id data)

/-- The binary-message case of the agent loop (hub.go lines 245–263):
decode, drop silently on failure, otherwise fan out over a snapshot of
the agent's clients. -/
def handleAgentBinary (h : HubSt) (aid : String) (data : Bytes) : List Out :=
  match Decode data with
  | none => []
  | some (sid, payload) =>
    (clientSnapshot h aid).filterMap (fanoutClient sid payload data)

/-! ## Lock endpoint (Hub.LockHandler) -/

/-- Case ranges of the Unicode simple lowercase mapping applied by Go's
`unicode.ToLower` (generated from the Unicode character database): an
entry `(lo, hi, stride, delta)` maps each code point `lo`, `lo+stride`,
…, `hi` by adding `delta`; code points in no entry are unchanged. -/
def lowerRanges : List (Nat × Nat × Nat × Int) :=
  [(65, 90, 1, 32), (192, 214, 1, 32), (216, 222, 1, 32), (256, 302, 2, 1), (304, 304, 1,
   -199), (306, 310, 2, 1), (313, 327, 2, 1), (330, 374, 2, 1), (376, 376, 1, -121), (377,
   381, 2, 1), (385, 385, 1, 210), (386, 388, 2, 1), (390, 390, 1, 206), (391, 391, 1, 1),
   (393, 394, 1, 205), (395, 395, 1, 1), (398, 398, 1, 79), (399, 399, 1, 202), (400, 400, 1,
   203), (401, 401, 1, 1), (403, 403, 1, 205), (404, 404, 1, 207), (406, 406, 1, 211), (407,
   407, 1, 209), (408, 408, 1, 1), (412, 412, 1, 211), (413, 413, 1, 213), (415, 415, 1, 214),
   (416, 420, 2, 1), (422, 422, 1, 218), (423, 423, 1, 1), (425, 425, 1, 218), (428, 428, 1,
   1), (430, 430, 1, 218), (431, 431, 1, 1), (433, 434, 1, 217), (435, 437, 2, 1), (439, 439,
   1, 219), (440, 444, 4, 1), (452, 452, 1, 2), (453, 453, 1, 1), (455, 455, 1, 2), (456, 456,
   1, 1), (458, 458, 1, 2), (459, 475, 2, 1), (478, 494, 2, 1), (497, 497, 1, 2), (498, 500,
   2, 1), (502, 502, 1, -97), (503, 503, 1, -56), (504, 542, 2, 1), (544, 544, 1, -130), (546,
   562, 2, 1), (570, 570, 1, 10795), (571, 571, 1, 1), (573, 573, 1, -163), (574, 574, 1,
   10792), (577, 577, 1, 1), (579, 579, 1, -195), (580, 580, 1, 69), (581, 581, 1, 71), (582,
   590, 2, 1), (880, 882, 2, 1), (886, 886, 1, 1), (895, 895, 1, 116), (902, 902, 1, 38),
   (904, 906, 1, 37), (908, 908, 1, 64), (910, 911, 1, 63), (913, 929, 1, 32), (931, 939, 1,
   32), (975, 975, 1, 8), (984, 1006, 2, 1), (1012, 1012, 1, -60), (1015, 1015, 1, 1), (1017,
   1017, 1, -7), (1018, 1018, 1, 1), (1021, 1023, 1, -130), (1024, 1039, 1, 80), (1040, 1071,
   1, 32), (1120, 1152, 2, 1), (1162, 1214, 2, 1), (1216, 1216, 1, 15), (1217, 1229, 2, 1),
   (1232, 1326, 2, 1), (1329, 1366, 1, 48), (4256, 4293, 1, 7264), (4295, 4301, 6, 7264),
   (5024, 5103, 1, 38864), (5104, 5109, 1, 8), (7312, 7354, 1, -3008), (7357, 7359, 1, -3008),
   (7680, 7828, 2, 1), (7838, 7838, 1, -7615), (7840, 7934, 2, 1), (7944, 7951, 1, -8), (7960,
   7965, 1, -8), (7976, 7983, 1, -8), (7992, 7999, 1, -8), (8008, 8013, 1, -8), (8025, 8031,
   2, -8), (8040, 8047, 1, -8), (8072, 8079, 1, -8), (8088, 8095, 1, -8), (8104, 8111, 1, -8),
   (8120, 8121, 1, -8), (8122, 8123, 1, -74), (8124, 8124, 1, -9), (8136, 8139, 1, -86),
   (8140, 8140, 1, -9), (8152, 8153, 1, -8), (8154, 8155, 1, -100), (8168, 8169, 1, -8),
   (8170, 8171, 1, -112), (8172, 8172, 1, -7), (8184, 8185, 1, -128), (8186, 8187, 1, -126),
   (8188, 8188, 1, -9), (8486, 8486, 1, -7517), (8490, 8490, 1, -8383), (8491, 8491, 1,
   -8262), (8498, 8498, 1, 28), (8544, 8559, 1, 16), (8579, 8579, 1, 1), (9398, 9423, 1, 26),
   (11264, 11311, 1, 48), (11360, 11360, 1, 1), (11362, 11362, 1, -10743), (11363, 11363, 1,
   -3814), (11364, 11364, 1, -10727), (11367, 11371, 2, 1), (11373, 11373, 1, -10780), (11374,
   11374, 1, -10749), (11375, 11375, 1, -10783), (11376, 11376, 1, -10782), (11378, 11381, 3,
   1), (11390, 11391, 1, -10815), (11392, 11490, 2, 1), (11499, 11501, 2, 1), (11506, 42560,
   31054, 1), (42562, 42604, 2, 1), (42624, 42650, 2, 1), (42786, 42798, 2, 1), (42802, 42862,
   2, 1), (42873, 42875, 2, 1), (42877, 42877, 1, -35332), (42878, 42886, 2, 1), (42891,
   42891, 1, 1), (42893, 42893, 1, -42280), (42896, 42898, 2, 1), (42902, 42920, 2, 1),
   (42922, 42922, 1, -42308), (42923, 42923, 1, -42319), (42924, 42924, 1, -42315), (42925,
   42925, 1, -42305), (42926, 42926, 1, -42308), (42928, 42928, 1, -42258), (42929, 42929, 1,
   -42282), (42930, 42930, 1, -42261), (42931, 42931, 1, 928), (42932, 42946, 2, 1), (42948,
   42948, 1, -48), (42949, 42949, 1, -42307), (42950, 42950, 1, -35384), (42951, 42953, 2, 1),
   (42960, 42966, 6, 1), (42968, 42997, 29, 1), (65313, 65338, 1, 32), (66560, 66599, 1, 40),
   (66736, 66771, 1, 40), (66928, 66938, 1, 39), (66940, 66954, 1, 39), (66956, 66962, 1, 39),
   (66964, 66965, 1, 39), (68736, 68786, 1, 64), (71840, 71871, 1, 32), (93760, 93791, 1, 32),
   (125184, 125217, 1, 34)]

/-- Go's `unicode.ToLower` on a single rune: look up the code point in
the simple lowercase case ranges. -/
def goToLowerChar (c : Char) : Char :=
  match lowerRanges.find? (fun r =>
      r.1 ≤ c.toNat ∧ c.toNat ≤ r.2.1 ∧ (c.toNat - r.1) % r.2.2.1 = 0) with
  | some r => Char.ofNat (((c.toNat : Int) + r.2.2.2).toNat)
  | none => c

/-- Go's `strings.ToLower` on the writer field: rune-wise Unicode simple
lowercasing. -/
def goToLower (s : String) : String := ⟨s.data.map goToLowerChar⟩

/-- Go's `unicode.IsSpace`: the Unicode White_Space property, the exact
set of runes `strings.TrimSpace` strips (space, tab, CR, LF, vertical
tab, form feed, NEL, NBSP and the Unicode space separators). -/
def goIsSpace (c : Char) : Bool :=
  [0x09, 0x0A, 0x0B, 0x0C, 0x0D, 0x20, 0x85, 0xA0, 0x1680,
   0x2028, 0x2029, 0x202F, 0x205F, 0x3000].contains c.toNat
  || (0x2000 ≤ c.toNat && c.toNat ≤ 0x200A)

/-- Go's `strings.TrimSpace` on the writer field: strip leading and
trailing White_Space runes. -/
def goTrimSpace (s : String) : String :=
  ⟨((s.data.dropWhile goIsSpace).reverse.dropWhile goIsSpace).reverse⟩

/-- The `switch writer` statement of `Hub.LockHandler`, applied to the
already-normalized writer value: "" or "web" enables web_writable,
"none" disables it, anything else is a 400; a failed mutation is a 404
and a successful one a 204. -/
def lockDispatch (h : HubSt) (agentID : String) (sessionID : Bytes) (w : String) :
    HubSt × Nat :=
  if w = "" ∨ w = "web" then
    match setWebWritable h agentID sessionID true with
    | (h', true) => (h', 204)
    | (_, false) => (h, 404)
  else if w = "none" then
    match setWebWritable h agentID sessionID false with
    | (h', true) => (h', 204)
    | (_, false) => (h, 404)
  else (h, 400)

/-- Method `Hub.LockHandler` after admin auth and JSON decoding
succeeded (hub.go lines 196–222): empty `agent_id`/`session_id` → 400;
otherwise the writer field is trimmed, lowercased and dispatched. -/
def lockHandler (h : HubSt) (agentID : String) (sessionID : Bytes) (writerField : String) :
    HubSt × Nat :=
  if agentID = "" ∨ sessionID = [] then (h, 400)
  else lockDispatch h agentID sessionID (goToLower (goTrimSpace writerField))

/-! ## Concrete states used by the witnesses -/

/-- A hub holding one agent `"a"` (connection 1) with one attached
protocol-1 client `"c-1"` (connection 10, claim session `[1]`). -/
def exHub : HubSt :=
  (addClient (registerAgent emptyHub "a" 1).1 "a" ⟨"c-1", 10, 1, [1]⟩).1

/-- The same hub after `"c-1"` has taken the writer slot. -/
def exHubW : HubSt := setWriter exHub "a" "c-1"

/-! ## Registry lemmas -/

theorem findAgent_updAgent_self (h : HubSt) (aid : String) (f : AgentRec → AgentRec) :
    findAgent (updAgent h aid f) aid = (findAgent h aid).map f := by
  obtain ⟨l⟩ := h
  simp only [findAgent, updAgent]
  induction l with
  | nil => rfl
  | cons p t ih =>
    by_cases hp : p.1 = aid
    · simp [List.find?, hp]
    · simpa [List.find?, hp] using ih

theorem findAgent_putAgent_self (h : HubSt) (aid : String) (s : AgentRec) :
    findAgent (putAgent h aid s) aid = some s := by
  simp [findAgent, putAgent, List.find?]

theorem clientSnapshot_setWriter (h : HubSt) (aid cid : String) :
    clientSnapshot (setWriter h aid cid) aid = clientSnapshot h aid := by
  simp only [clientSnapshot, setWriter, findAgent_updAgent_self]
  cases findAgent h aid <;> rfl

/-! ## Mux codec lemmas -/

theorem Encode_eq_some (s p : Bytes) (h0 : s.length ≠ 0) (h1 : s.length ≤ 0xFFFF) :
    Encode s p = some ([s.length / 256, s.length % 256] ++ s ++ p) := by
  unfold Encode
  rw [if_neg h0, if_neg (by omega)]

theorem Decode_Encode (s p : Bytes) (h0 : s ≠ []) (h1 : s.length ≤ 0xFFFF) :
    ∀ f, Encode s p = some f → Decode f = some (s, p) := by
  intro f hf
  have hlen : s.length ≠ 0 := by
    simpa [List.length_eq_zero] using h0
  rw [Encode_eq_some s p hlen h1] at hf
  have hf' : f = s.length / 256 :: s.length % 256 :: (s ++ p) := by
    simpa using hf.symm
  subst hf'
  unfold Decode
  have hsid : s.length / 256 * 256 + s.length % 256 = s.length := by
    omega
  simp only [hsid]
  rw [if_neg (by simp)]
  simp [List.take_append_of_le_length le_rfl, List.drop_append_of_le_length le_rfl, h0]

theorem Decode_cons (b0 b1 : Nat) (rest : Bytes) :
    Decode (b0 :: b1 :: rest) =
      if rest.length < b0 * 256 + b1 then none
      else if rest.take (b0 * 256 + b1) = [] then none
      else some (rest.take (b0 * 256 + b1), rest.drop (b0 * 256 + b1)) := rfl

theorem Encode_some_conditions (s p f : Bytes) (hf : Encode s p = some f) :
    s ≠ [] ∧ s.length ≤ 0xFFFF := by
  unfold Encode at hf
  by_cases h0 : s.length = 0
  · rw [if_pos h0] at hf; cases hf
  · rw [if_neg h0] at hf
    by_cases h1 : s.length > 0xFFFF
    · rw [if_pos h1] at hf; cases hf
    · exact ⟨by simpa [List.length_eq_zero] using h0, by omega⟩

/-- C2: for every non-empty session id of at most 65535 bytes and every
payload, `Decode` applied to the result of `Encode` succeeds and returns
exactly the session id and payload. -/
theorem mux_roundtrip (s p : Bytes) (h0 : s ≠ []) (h1 : s.length ≤ 65535) :
    ∃ f, Encode s p = some f ∧ Decode f = some (s, p) := by
  have hlen : s.length ≠ 0 := by simpa [List.length_eq_zero] using h0
  refine ⟨_, Encode_eq_some s p hlen (by omega), ?_⟩
  exact Decode_Encode s p h0 (by omega) _ (Encode_eq_some s p hlen (by omega))

/-- Witness for C2 at session id `[1]`, payload `[2, 3]`. -/
theorem mux_roundtrip_witness :
    [1] ≠ ([] : Bytes) ∧ ([1] : Bytes).length ≤ 65535 ∧
      ∃ f, Encode [1] [2, 3] = some f ∧ Decode f = some ([1], [2, 3]) :=
  ⟨by decide, by decide, mux_roundtrip [1] [2, 3] (by decide) (by decide)⟩

/-- C8: `Encode` fails exactly when the session id is empty or longer
than 65535 bytes, and otherwise emits the 2-byte big-endian length, the
session id, then the payload; `Decode` fails on frames shorter than 2
bytes, and on longer frames fails exactly when the declared session-id
length exceeds the remaining bytes or is zero, and otherwise succeeds,
splitting the remainder at the declared length. -/
theorem mux_error_conditions (s p d rest : Bytes) (b0 b1 : Nat) :
    (Encode s p = none ↔ s.length = 0 ∨ s.length > 65535) ∧
    (s.length ≠ 0 → s.length ≤ 65535 →
      Encode s p = some ([s.length / 256, s.length % 256] ++ s ++ p)) ∧
    (d.length < 2 → Decode d = none) ∧
    (Decode (b0 :: b1 :: rest) = none ↔
      b0 * 256 + b1 > rest.length ∨ b0 * 256 + b1 = 0) ∧
    (b0 * 256 + b1 ≤ rest.length → b0 * 256 + b1 ≠ 0 →
      Decode (b0 :: b1 :: rest) =
        some (rest.take (b0 * 256 + b1), rest.drop (b0 * 256 + b1))) := by
  refine ⟨?_, ?_, ?_, ?_, ?_⟩
  · constructor
    · intro he
      by_cases h0 : s.length = 0
      · exact Or.inl h0
      · unfold Encode at he
        rw [if_neg h0] at he
        by_cases h1 : s.length > 0xFFFF
        · exact Or.inr (by omega)
        · rw [if_neg h1] at he; cases he
    · intro hor
      unfold Encode
      rcases hor with h0 | h1
      · rw [if_pos h0]
      · rw [if_neg (by omega), if_pos (by omega)]
  · intro h0 h1
    exact Encode_eq_some s p h0 (by omega)
  · intro hd
    match d, hd with
    | [], _ => rfl
    | [_], _ => rfl
    | _ :: _ :: _, hd => simp at hd; omega
  · rw [Decode_cons]
    constructor
    · intro hd
      by_cases hlt : rest.length < b0 * 256 + b1
      · exact Or.inl (by omega)
      · right
        rw [if_neg hlt] at hd
        by_cases hz : rest.take (b0 * 256 + b1) = []
        · rcases List.take_eq_nil_iff.mp hz with h | h
          · exact h
          · subst h; simp at hlt; omega
        · rw [if_neg hz] at hd; cases hd
    · intro hor
      rcases hor with hgt | hz
      · rw [if_pos (by omega)]
      · rw [if_neg (by omega), if_pos (by simp [hz])]
  · intro hle hnz
    rw [Decode_cons, if_neg (by omega), if_neg ?_]
    intro hc
    rcases List.take_eq_nil_iff.mp hc with h | h
    · exact hnz h
    · subst h; simp at hle; omega

/-- Witness for C8: `Encode` at the empty id fails; at id `[7]` it emits
the framed bytes; 1-byte frames fail to decode; a frame declaring more
bytes than remain fails; a well-formed 2-byte-header frame decodes. -/
theorem mux_error_conditions_witness :
    (Encode [] [1] = none) ∧
    (Encode [7] [8] = some [0, 1, 7, 8]) ∧
    (Decode [5] = none) ∧
    (Decode [0, 2, 9] = none) ∧
    (Decode [0, 1, 9, 4] = some ([9], [4])) := by
  have h := mux_error_conditions [7] [8] [5] [9, 4] 0 1
  have h' := mux_error_conditions [] [1] [5] [9] 0 2
  refine ⟨(h'.1).mpr (by decide), ?_, h.2.2.1 (by decide), (h'.2.2.2.1).mpr (by decide), ?_⟩
  · have := h.2.1 (by decide) (by decide)
    simpa using this
  · have := h.2.2.2.2 (by decide) (by decide)
    simpa using this


/-! ## Client input gates (C1, C5) -/

theorem handleClientBinary_drop (h : HubSt) (aid cid : String) (claims : Claims)
    (ls : ClientLoop) (proto : Nat) (data : Bytes)
    (hor : claims.write = false ∨ ls.focusActive = false ∨
      webWritable h aid = false ∨ isWriter h aid cid = false) :
    handleClientBinary h aid cid claims ls proto data = none := by
  unfold handleClientBinary
  rcases hor with h1 | h2 | h3 | h4
  · simp [h1]
  · simp [h2]
  · simp [h3]
  · by_cases h1 : claims.write
    · by_cases h2 : ls.focusActive
      · by_cases h3 : webWritable h aid
        · simp [h1, h2, h3, h4]
        · simp [h1, h2, h3]
      · simp [h1, h2]
    · simp [h1]

theorem handleClientBinary_some_gates (h : HubSt) (aid cid : String) (claims : Claims)
    (ls : ClientLoop) (proto : Nat) (data frame : Bytes)
    (hf : handleClientBinary h aid cid claims ls proto data = some frame) :
    claims.write = true ∧ ls.focusActive = true ∧
      webWritable h aid = true ∧ isWriter h aid cid = true := by
  by_cases h1 : claims.write
  · by_cases h2 : ls.focusActive
    · by_cases h3 : webWritable h aid
      · by_cases h4 : isWriter h aid cid
        · exact ⟨h1, h2, h3, h4⟩
        · rw [handleClientBinary_drop h aid cid claims ls proto data
            (Or.inr (Or.inr (Or.inr (by simpa using h4))))] at hf
          cases hf
      · rw [handleClientBinary_drop h aid cid claims ls proto data
          (Or.inr (Or.inr (Or.inl (by simpa using h3))))] at hf
        cases hf
    · rw [handleClientBinary_drop h aid cid claims ls proto data
        (Or.inr (Or.inl (by simpa using h2)))] at hf
      cases hf
  · rw [handleClientBinary_drop h aid cid claims ls proto data
      (Or.inl (by simpa using h1))] at hf
    cases hf

theorem handleClientBinary_open_p2 (h : HubSt) (aid cid : String) (claims : Claims)
    (ls : ClientLoop) (proto : Nat) (data sid payload : Bytes)
    (h1 : claims.write = true) (h2 : ls.focusActive = true)
    (h3 : webWritable h aid = true) (h4 : isWriter h aid cid = true)
    (hnp : ¬ proto < 2) (hd : Decode data = some (sid, payload)) :
    handleClientBinary h aid cid claims ls proto data =
      if sid ≠ ls.activeSession then none else Encode sid payload := by
  unfold handleClientBinary
  rw [if_neg (by simp [h1]), if_neg (by simp [h2, h3]), if_neg (by simp [h4]),
    if_neg hnp, hd]

theorem handleClientBinary_open_p2_none (h : HubSt) (aid cid : String) (claims : Claims)
    (ls : ClientLoop) (proto : Nat) (data : Bytes)
    (h1 : claims.write = true) (h2 : ls.focusActive = true)
    (h3 : webWritable h aid = true) (h4 : isWriter h aid cid = true)
    (hnp : ¬ proto < 2) (hd : Decode data = none) :
    handleClientBinary h aid cid claims ls proto data = none := by
  unfold handleClientBinary
  rw [if_neg (by simp [h1]), if_neg (by simp [h2, h3]), if_neg (by simp [h4]),
    if_neg hnp, hd]

/-- C1: a binary message from a client is forwarded to the agent link
only if, at the moment of the check, the client's claims permit write,
its focus flag is on, the agent's web_writable flag is true, and the
client is the agent's current writer; when any of these fails the
message is dropped (no frame reaches the agent). -/
theorem client_binary_gates (h : HubSt) (aid cid : String) (claims : Claims)
    (ls : ClientLoop) (proto : Nat) (data : Bytes) :
    (∀ frame, handleClientBinary h aid cid claims ls proto data = some frame →
      claims.write = true ∧ ls.focusActive = true ∧
        webWritable h aid = true ∧ isWriter h aid cid = true) ∧
    ((claims.write = false ∨ ls.focusActive = false ∨
        webWritable h aid = false ∨ isWriter h aid cid = false) →
      handleClientBinary h aid cid claims ls proto data = none) :=
  ⟨fun frame hf => handleClientBinary_some_gates h aid cid claims ls proto data frame hf,
   fun hor => handleClientBinary_drop h aid cid claims ls proto data hor⟩

/-- Witness for C1: with the writer slot held by `"c-1"` on `exHubW`, a
protocol-1 binary input is forwarded and the four gates all hold. -/
theorem client_binary_gates_witness :
    Claims.write ⟨"a", [1], true⟩ = true ∧
      ClientLoop.focusActive ⟨true, [1]⟩ = true ∧
      webWritable exHubW "a" = true ∧ isWriter exHubW "a" "c-1" = true :=
  (client_binary_gates exHubW "a" "c-1" ⟨"a", [1], true⟩ ⟨true, [1]⟩ 1 [2]).1
    [0, 1, 1, 2] (by decide)

/-- C5: in protocol 2 any forwarded binary input frame carries the
client's current active session: a decoded frame whose session id
differs from `activeSession` is dropped, and a matching frame is
re-encoded before being written, so the forwarded frame decodes to
`(activeSession, payload)`. -/
theorem proto2_forward_active_session (h : HubSt) (aid cid : String) (claims : Claims)
    (ls : ClientLoop) (proto : Nat) (data : Bytes) (hp : 2 ≤ proto) :
    (∀ frame, handleClientBinary h aid cid claims ls proto data = some frame →
      ∃ payload, Decode data = some (ls.activeSession, payload) ∧
        Encode ls.activeSession payload = some frame ∧
        Decode frame = some (ls.activeSession, payload)) ∧
    (∀ sid payload, Decode data = some (sid, payload) → sid ≠ ls.activeSession →
      handleClientBinary h aid cid claims ls proto data = none) := by
  have hnp : ¬ proto < 2 := by omega
  constructor
  · intro frame hf
    obtain ⟨h1, h2, h3, h4⟩ :=
      handleClientBinary_some_gates h aid cid claims ls proto data frame hf
    rcases hd : Decode data with _ | ⟨sid, payload⟩
    · rw [handleClientBinary_open_p2_none h aid cid claims ls proto data
        h1 h2 h3 h4 hnp hd] at hf
      cases hf
    · rw [handleClientBinary_open_p2 h aid cid claims ls proto data sid payload
        h1 h2 h3 h4 hnp hd] at hf
      by_cases hs : sid = ls.activeSession
      · subst hs
        rw [if_neg (by simp)] at hf
        obtain ⟨hne, hl⟩ := Encode_some_conditions _ _ _ hf
        exact ⟨payload, rfl, hf, Decode_Encode _ _ hne hl _ hf⟩
      · rw [if_pos (by simpa using hs)] at hf
        cases hf
  · intro sid payload hd hne
    by_cases h1 : claims.write = true
    · by_cases h2 : ls.focusActive = true
      · by_cases h3 : webWritable h aid = true
        · by_cases h4 : isWriter h aid cid = true
          · rw [handleClientBinary_open_p2 h aid cid claims ls proto data sid payload
              h1 h2 h3 h4 hnp hd, if_pos (by simpa using hne)]
          · exact handleClientBinary_drop h aid cid claims ls proto data
              (Or.inr (Or.inr (Or.inr (by simpa using h4))))
        · exact handleClientBinary_drop h aid cid claims ls proto data
            (Or.inr (Or.inr (Or.inl (by simpa using h3))))
      · exact handleClientBinary_drop h aid cid claims ls proto data
          (Or.inr (Or.inl (by simpa using h2)))
    · exact handleClientBinary_drop h aid cid claims ls proto data
        (Or.inl (by simpa using h1))

/-- Witness for C5: a protocol-2 input frame for session `[1]` matching
the active session `[1]` is forwarded and decodes back to `([1], [2])`. -/
theorem proto2_forward_active_session_witness :
    2 ≤ 2 ∧
      ∃ payload, Decode [0, 1, 1, 2] = some ([1], payload) ∧
        Encode [1] payload = some [0, 1, 1, 2] ∧
        Decode [0, 1, 1, 2] = some ([1], payload) :=
  ⟨le_refl 2,
    (proto2_forward_active_session exHubW "a" "c-1" ⟨"a", [], true⟩ ⟨true, [1]⟩ 2
      [0, 1, 1, 2] (le_refl 2)).1 [0, 1, 1, 2] (by decide)⟩

/-! ## Agent fan-out (C4) -/

/-- C4: a binary frame from the agent that decodes to `(sid, payload)`
is fanned out over the snapshot of the agent's clients: a client with
protocol version < 2 receives the bare payload, and only when its claim
session is empty or equals `sid`; a client with protocol version ≥ 2
receives the framed bytes verbatim; a frame that fails to decode
produces no output. -/
theorem agent_binary_fanout (h : HubSt) (aid : String) (data sid payload : Bytes) :
    (Decode data = none → handleAgentBinary h aid data = []) ∧
    (Decode data = some (sid, payload) →
      handleAgentBinary h aid data =
        (clientSnapshot h aid).filterMap (fanoutClient sid payload data) ∧
      (∀ c : ClientRec, c.proto < 2 →
        fanoutClient sid payload data c =
          if c.session = [] ∨ c.session = sid then some (Out.bytesToClient c.id payload)
          else none) ∧
      (∀ c : ClientRec, 2 ≤ c.proto →
        fanoutClient sid payload data c = some (Out.bytesToClient c.id data))) := by
  constructor
  · intro hd
    unfold handleAgentBinary
    rw [hd]
  · intro hd
    refine ⟨?_, ?_, ?_⟩
    · unfold handleAgentBinary
      rw [hd]
    · intro c hc
      unfold fanoutClient
      rw [if_pos hc]
      by_cases hs : c.session = [] ∨ c.session = sid
      · rw [if_pos hs, if_neg (by tauto)]
      · rw [if_neg hs, if_pos (by tauto)]
    · intro c hc
      unfold fanoutClient
      rw [if_neg (by omega)]

/-- Witness for C4 on a hub with a protocol-1 client bound to session
`[1]`: the frame `[0, 1, 1, 9]` decodes to `([1], [9])` and the fan-out
list is the filterMap of the snapshot. -/
theorem agent_binary_fanout_witness :
    Decode [0, 1, 1, 9] = some ([1], [9]) ∧
      handleAgentBinary exHub "a" [0, 1, 1, 9] =
        (clientSnapshot exHub "a").filterMap (fanoutClient [1] [9] [0, 1, 1, 9]) ∧
      handleAgentBinary exHub "a" [0, 1, 1, 9] = [Out.bytesToClient "c-1" [9]] :=
  ⟨by decide,
   ((agent_binary_fanout exHub "a" [0, 1, 1, 9] [1] [9]).2 (by decide)).1,
   by decide⟩

/-! ## Focus messages (C10) -/

/-- C10: a focus message whose state is neither "on" nor "off" is not an
error and leaves everything unchanged; state "on" sets the focus flag,
state "off" clears it; the hub state and the active session are never
touched and nothing is written to any link. -/
theorem focus_message_effect (h : HubSt) (ls : ClientLoop) (st : String) :
    handleFocusMsg h ls "on" = (h, { ls with focusActive := true }, []) ∧
    handleFocusMsg h ls "off" = (h, { ls with focusActive := false }, []) ∧
    (st ≠ "on" → st ≠ "off" → handleFocusMsg h ls st = (h, ls, [])) ∧
    (handleFocusMsg h ls st).1 = h ∧
    (handleFocusMsg h ls st).2.1.activeSession = ls.activeSession ∧
    (handleFocusMsg h ls st).2.2 = [] := by
  refine ⟨rfl, rfl, ?_, ?_, ?_, ?_⟩
  · intro hon hoff
    unfold handleFocusMsg
    rw [if_neg hon, if_neg hoff]
  all_goals
    unfold handleFocusMsg
    by_cases hon : st = "on"
    · rw [if_pos hon]
    · rw [if_neg hon]
      by_cases hoff : st = "off"
      · rw [if_pos hoff]
      · rw [if_neg hoff]

/-- Witness for C10 at the unrecognized state "toggle". -/
theorem focus_message_effect_witness :
    handleFocusMsg exHub ⟨true, [1]⟩ "toggle" = (exHub, ⟨true, [1]⟩, []) :=
  (focus_message_effect exHub ⟨true, [1]⟩ "toggle").2.2.1 (by decide) (by decide)

/-! ## Writer arbitration (C3, C9) -/

theorem broadcastWriteStatus_after_setWriter (h : HubSt) (aid cid : String) (s : AgentRec)
    (hfind : findAgent h aid = some s) :
    broadcastWriteStatus (setWriter h aid cid) aid =
      s.clients.map fun c =>
        Out.toClient c.id { type := "write_status", write := c.id = cid } := by
  have hfind' : findAgent (setWriter h aid cid) aid = some { s with writer := cid } := by
    rw [setWriter, findAgent_updAgent_self, hfind]; rfl
  unfold broadcastWriteStatus clientSnapshot
  rw [hfind']

theorem isWriter_elim (h : HubSt) (aid cid : String) (hw : isWriter h aid cid = true) :
    ∃ s, findAgent h aid = some s ∧ s.writer = cid ∧ cid ≠ "" := by
  unfold isWriter at hw
  rcases hfs : findAgent h aid with _ | s
  · rw [hfs] at hw; cases hw
  · rw [hfs] at hw
    exact ⟨s, rfl, by simpa using hw⟩

/-- C3: request_write evaluates its gates in order: no write claim gives
write_denied/not_authorized; web_writable off gives write_denied/locked;
an existing different writer gives write_denied/another_writer; and
otherwise the writer slot is set to this client and write_status is
broadcast to every client of the agent, the write bit of each being the
comparison of its id with the new writer id. -/
theorem request_write_gate_order (h : HubSt) (aid cid : String) (cw : Bool) :
    (cw = false →
      handleRequestWrite h aid cid cw =
        (h, [Out.toRequester { type := "write_denied", code := "not_authorized",
                               message := "not authorized for write" }])) ∧
    (cw = true → webWritable h aid = false →
      handleRequestWrite h aid cid cw =
        (h, [Out.toRequester { type := "write_denied", code := "locked",
                               message := "web input locked" }])) ∧
    (cw = true → webWritable h aid = true → hasWriter h aid = true →
      isWriter h aid cid = false →
      handleRequestWrite h aid cid cw =
        (h, [Out.toRequester { type := "write_denied", code := "another_writer",
                               message := "another writer active" }])) ∧
    (∀ s, cw = true → webWritable h aid = true →
      (hasWriter h aid = false ∨ isWriter h aid cid = true) →
      findAgent h aid = some s →
      handleRequestWrite h aid cid cw =
        (setWriter h aid cid,
         s.clients.map fun c =>
           Out.toClient c.id { type := "write_status", write := c.id = cid }) ∧
      findAgent (setWriter h aid cid) aid = some { s with writer := cid }) := by
  refine ⟨?_, ?_, ?_, ?_⟩
  · intro hcw
    unfold handleRequestWrite
    rw [if_pos (by simp [hcw])]
  · intro hcw hww
    unfold handleRequestWrite
    rw [if_neg (by simp [hcw]), if_pos (by simp [hww])]
  · intro hcw hww hhw hiw
    unfold handleRequestWrite
    rw [if_neg (by simp [hcw]), if_neg (by simp [hww]),
      if_pos ⟨hhw, by simp [hiw]⟩]
  · intro s hcw hww hor hfind
    have hne : ¬ (hasWriter h aid = true ∧ ¬ isWriter h aid cid = true) := by
      rcases hor with hw | hi
      · simp [hw]
      · simp [hi]
    constructor
    · unfold handleRequestWrite
      rw [if_neg (by simp [hcw]), if_neg (by simp [hww]), if_neg hne]
      show (setWriter h aid cid, broadcastWriteStatus (setWriter h aid cid) aid) = _
      rw [broadcastWriteStatus_after_setWriter h aid cid s hfind]
    · rw [setWriter, findAgent_updAgent_self, hfind]; rfl

/-- Witness for C3: on `exHub` (no writer yet) a request by `"c-1"` with
a write claim succeeds and broadcasts `write_status{write=true}` to the
single attached client. -/
theorem request_write_gate_order_witness :
    webWritable exHub "a" = true ∧ hasWriter exHub "a" = false ∧
      handleRequestWrite exHub "a" "c-1" true =
        (setWriter exHub "a" "c-1",
         [Out.toClient "c-1" { type := "write_status", write := true }]) := by
  refine ⟨by decide, by decide, ?_⟩
  have h4 := ((request_write_gate_order exHub "a" "c-1" true).2.2.2
    ⟨"a", 1, [⟨"c-1", 10, 1, [1]⟩], "", true, []⟩ rfl (by decide)
    (Or.inl (by decide)) (by decide)).1
  rw [h4]
  decide

/-- C9: request_write is idempotent for the current writer: when the
requesting client already holds the writer slot, its claims allow write
and web_writable is on, the request is not denied (no message is sent
back on the requester-only path), the writer slot still holds this
client's id, and write_status is broadcast again to every attached
client. -/
theorem request_write_idempotent (h : HubSt) (aid cid : String)
    (hw : isWriter h aid cid = true) (hww : webWritable h aid = true) :
    isWriter (handleRequestWrite h aid cid true).1 aid cid = true ∧
    (∀ m, Out.toRequester m ∉ (handleRequestWrite h aid cid true).2) ∧
    (handleRequestWrite h aid cid true).2 =
      (clientSnapshot h aid).map fun c =>
        Out.toClient c.id { type := "write_status", write := c.id = cid } := by
  obtain ⟨s, hfind, hwr, hcid⟩ := isWriter_elim h aid cid hw
  have hne : ¬ (hasWriter h aid = true ∧ ¬ isWriter h aid cid = true) := by
    simp [hw]
  have hstep : handleRequestWrite h aid cid true =
      (setWriter h aid cid, broadcastWriteStatus (setWriter h aid cid) aid) := by
    unfold handleRequestWrite
    rw [if_neg (by simp), if_neg (by simp [hww]), if_neg hne]
  rw [hstep]
  have hfind' : findAgent (setWriter h aid cid) aid = some { s with writer := cid } := by
    rw [setWriter, findAgent_updAgent_self, hfind]; rfl
  refine ⟨?_, ?_, ?_⟩
  · unfold isWriter
    rw [hfind']
    simp [hcid]
  · intro m hm
    rw [broadcastWriteStatus_after_setWriter h aid cid s hfind] at hm
    simp [List.mem_map] at hm
  · rw [broadcastWriteStatus_after_setWriter h aid cid s hfind]
    unfold clientSnapshot
    rw [hfind]

/-- Witness for C9: `"c-1"` already holds the writer slot on `exHubW`
and its repeated request keeps it there and re-broadcasts. -/
theorem request_write_idempotent_witness :
    isWriter exHubW "a" "c-1" = true ∧ webWritable exHubW "a" = true ∧
      isWriter (handleRequestWrite exHubW "a" "c-1" true).1 "a" "c-1" = true ∧
      (handleRequestWrite exHubW "a" "c-1" true).2 =
        (clientSnapshot exHubW "a").map fun c =>
          Out.toClient c.id { type := "write_status", write := c.id = "c-1" } :=
  ⟨by decide, by decide,
   (request_write_idempotent exHubW "a" "c-1" (by decide) (by decide)).1,
   (request_write_idempotent exHubW "a" "c-1" (by decide) (by decide)).2.2⟩

/-! ## Agent re-registration (C6) -/

/-- Counterexample to C6: on a hub whose agent `"a"` (connection 1) has
an attached client (connection 10), re-registering `"a"` with a new
connection 2 closes no link at all — neither the prior agent link nor
any client link — and the later unregister of the prior link is a
no-op; yet the record is overwritten.  The claim's "the prior agent
link is closed, and all clients attached to the prior record are
evicted (their links closed)" is therefore false. -/
theorem agent_takeover_eviction_counterexample :
    clientSnapshot exHub "a" = [⟨"c-1", 10, 1, [1]⟩] ∧
    (registerAgent exHub "a" 2).2 = [] ∧
    unregisterAgent (registerAgent exHub "a" 2).1 "a" 1 =
      ((registerAgent exHub "a" 2).1, []) ∧
    findAgent (registerAgent exHub "a" 2).1 "a" = some ⟨"a", 2, [], "", true, []⟩ := by
  decide

/-- C6 amended: a new registration under an existing agent id
overwrites the prior record with a fresh one (last-writer-wins), but
the prior agent link is not closed and the clients of the prior record
are not evicted — the hub closes no connection, and the prior link's
eventual unregister is a no-op because the stored connection no longer
matches. -/
theorem agent_reregistration_abandons (h : HubSt) (aid : String) (c1 c2 : Nat)
    (hne : c1 ≠ c2) :
    (registerAgent h aid c2).2 = [] ∧
    findAgent (registerAgent h aid c2).1 aid = some ⟨aid, c2, [], "", true, []⟩ ∧
    unregisterAgent (registerAgent h aid c2).1 aid c1 =
      ((registerAgent h aid c2).1, []) := by
  have hf : findAgent (putAgent h aid ⟨aid, c2, [], "", true, []⟩) aid =
      some ⟨aid, c2, [], "", true, []⟩ :=
    findAgent_putAgent_self h aid _
  refine ⟨rfl, hf, ?_⟩
  show unregisterAgent (putAgent h aid ⟨aid, c2, [], "", true, []⟩) aid c1 =
    (putAgent h aid ⟨aid, c2, [], "", true, []⟩, [])
  unfold unregisterAgent
  rw [hf]
  show (if (⟨aid, c2, [], "", true, []⟩ : AgentRec).connId ≠ c1 then
          (putAgent h aid ⟨aid, c2, [], "", true, []⟩, [])
        else (⟨(putAgent h aid ⟨aid, c2, [], "", true, []⟩).agents.filter
                (fun p => ¬ p.1 = aid)⟩,
              (⟨aid, c2, [], "", true, []⟩ : AgentRec).clients.map (·.connId))) =
    (putAgent h aid ⟨aid, c2, [], "", true, []⟩, [])
  rw [if_pos (fun hc => hne hc.symm)]

/-- Witness for the amended C6 at connections 1 (old) and 2 (new). -/
theorem agent_reregistration_abandons_witness :
    (1 : Nat) ≠ 2 ∧
      findAgent (registerAgent exHub "a" 2).1 "a" = some ⟨"a", 2, [], "", true, []⟩ ∧
      unregisterAgent (registerAgent exHub "a" 2).1 "a" 1 =
        ((registerAgent exHub "a" 2).1, []) :=
  ⟨by decide, (agent_reregistration_abandons exHub "a" 1 2 (by decide)).2.1,
   (agent_reregistration_abandons exHub "a" 1 2 (by decide)).2.2⟩

/-! ## Lock endpoint behaviour (C7) -/

theorem setWebWritable_ok (h : HubSt) (aid : String) (sid : Bytes) (e : Bool) (s : AgentRec)
    (hfind : findAgent h aid = some s) (hint : s.sess = [] ∨ s.sess = sid) :
    setWebWritable h aid sid e =
      (updAgent h aid (fun s => { s with write := e }), true) := by
  unfold setWebWritable
  rw [hfind]
  show (if s.sess ≠ [] ∧ s.sess ≠ sid then (h, false)
        else (updAgent h aid (fun s => { s with write := e }), true)) =
    (updAgent h aid (fun s => { s with write := e }), true)
  rw [if_neg (by tauto)]

theorem setWebWritable_fail_none (h : HubSt) (aid : String) (sid : Bytes) (e : Bool)
    (hfind : findAgent h aid = none) :
    setWebWritable h aid sid e = (h, false) := by
  unfold setWebWritable
  rw [hfind]

theorem setWebWritable_fail_hint (h : HubSt) (aid : String) (sid : Bytes) (e : Bool)
    (s : AgentRec) (hfind : findAgent h aid = some s)
    (hint : s.sess ≠ [] ∧ s.sess ≠ sid) :
    setWebWritable h aid sid e = (h, false) := by
  unfold setWebWritable
  rw [hfind]
  show (if s.sess ≠ [] ∧ s.sess ≠ sid then (h, false)
        else (updAgent h aid (fun s => { s with write := e }), true)) = (h, false)
  rw [if_pos hint]

theorem webWritable_updAgent (h : HubSt) (aid : String) (e : Bool) (s : AgentRec)
    (hfind : findAgent h aid = some s) :
    webWritable (updAgent h aid (fun s => { s with write := e })) aid = e := by
  unfold webWritable
  rw [findAgent_updAgent_self, hfind]
  rfl

/-- Counterexample to C7: the writer value `"WEB"` is neither `"web"`
nor `""` nor `"none"`, so per the claim it should yield HTTP 400; the
handler lowercases it first and instead applies the mutation and
returns 204 with web_writable set to true. -/
theorem lock_handler_uppercase_counterexample :
    lockHandler exHub "a" [1] "WEB" ≠ (exHub, 400) ∧
    (lockHandler exHub "a" [1] "WEB").2 = 204 ∧
    webWritable (lockHandler exHub "a" [1] "WEB").1 "a" = true := by
  decide

/-- C7 amended: the lock endpoint normalizes the writer value by
trimming whitespace and lowercasing before comparing: a normalized
value of "web" or "" sets web_writable true, "none" sets it false, and
any other normalized value yields 400; the mutation succeeds only when
the agent record exists and its session hint is empty or equal to the
request's session id, otherwise 404; on success 204. -/
theorem lock_handler_normalized (h : HubSt) (aid : String) (sid : Bytes) (w : String)
    (ha : aid ≠ "") (hs : sid ≠ []) :
    (∀ s, findAgent h aid = some s → s.sess = [] ∨ s.sess = sid →
      ((goToLower (goTrimSpace w) = "" ∨ goToLower (goTrimSpace w) = "web") →
        lockHandler h aid sid w =
          (updAgent h aid (fun s => { s with write := true }), 204) ∧
        webWritable (lockHandler h aid sid w).1 aid = true) ∧
      (goToLower (goTrimSpace w) = "none" →
        lockHandler h aid sid w =
          (updAgent h aid (fun s => { s with write := false }), 204) ∧
        webWritable (lockHandler h aid sid w).1 aid = false)) ∧
    ((goToLower (goTrimSpace w) = "" ∨ goToLower (goTrimSpace w) = "web" ∨
        goToLower (goTrimSpace w) = "none") →
      (findAgent h aid = none ∨
        (∃ s, findAgent h aid = some s ∧ s.sess ≠ [] ∧ s.sess ≠ sid)) →
      lockHandler h aid sid w = (h, 404)) ∧
    (goToLower (goTrimSpace w) ≠ "" → goToLower (goTrimSpace w) ≠ "web" →
      goToLower (goTrimSpace w) ≠ "none" →
      lockHandler h aid sid w = (h, 400)) := by
  have hno : ¬ (aid = "" ∨ sid = []) := by tauto
  refine ⟨?_, ?_, ?_⟩
  · intro s hfind hint
    constructor
    · intro hw
      have : lockHandler h aid sid w =
          (updAgent h aid (fun s => { s with write := true }), 204) := by
        unfold lockHandler lockDispatch
        rw [if_neg hno, if_pos hw, setWebWritable_ok h aid sid true s hfind hint]
      exact ⟨this, by rw [this]; exact webWritable_updAgent h aid true s hfind⟩
    · intro hw
      have hnw : ¬ (goToLower (goTrimSpace w) = "" ∨ goToLower (goTrimSpace w) = "web") := by
        rw [hw]; decide
      have : lockHandler h aid sid w =
          (updAgent h aid (fun s => { s with write := false }), 204) := by
        unfold lockHandler lockDispatch
        rw [if_neg hno, if_neg hnw, if_pos hw,
          setWebWritable_ok h aid sid false s hfind hint]
      exact ⟨this, by rw [this]; exact webWritable_updAgent h aid false s hfind⟩
  · intro hw hfail
    have hmut : ∀ e, setWebWritable h aid sid e = (h, false) := by
      intro e
      rcases hfail with hnone | ⟨s, hfind, hint⟩
      · exact setWebWritable_fail_none h aid sid e hnone
      · exact setWebWritable_fail_hint h aid sid e s hfind hint
    unfold lockHandler lockDispatch
    rw [if_neg hno]
    rcases hw with hw | hw | hw
    · rw [if_pos (Or.inl hw), hmut true]
    · rw [if_pos (Or.inr hw), hmut true]
    · have hnw : ¬ (goToLower (goTrimSpace w) = "" ∨ goToLower (goTrimSpace w) = "web") := by
        rw [hw]; decide
      rw [if_neg hnw, if_pos hw, hmut false]
  · intro h1 h2 h3
    unfold lockHandler lockDispatch
    rw [if_neg hno, if_neg (by tauto), if_neg h3]

/-- Witness for the amended C7 on `exHub`: `" Web "` normalizes to
`"web"` and enables; `"NONE"` normalizes to `"none"` and disables;
`"frob"` yields 400. -/
theorem lock_handler_normalized_witness :
    ("a" : String) ≠ "" ∧ ([1] : Bytes) ≠ [] ∧
      (lockHandler exHub "a" [1] " Web ").2 = 204 ∧
      webWritable (lockHandler exHub "a" [1] " Web ").1 "a" = true ∧
      (lockHandler exHub "a" [1] "\x0Bweb").2 = 204 ∧
      webWritable (lockHandler exHub "a" [1] "\x0Bweb").1 "a" = true ∧
      lockHandler exHub "a" [1] "frob" = (exHub, 400) := by
  have hm := (lock_handler_normalized exHub "a" [1] " Web " (by decide) (by decide)).1
    ⟨"a", 1, [⟨"c-1", 10, 1, [1]⟩], "", true, []⟩ (by decide) (Or.inl (by decide))
  have hweb := hm.1 (Or.inr (by decide))
  have hv := ((lock_handler_normalized exHub "a" [1] "\x0Bweb" (by decide) (by decide)).1
    ⟨"a", 1, [⟨"c-1", 10, 1, [1]⟩], "", true, []⟩ (by decide) (Or.inl (by decide))).1
    (Or.inr (by decide))
  have hbad := (lock_handler_normalized exHub "a" [1] "frob" (by decide) (by decide)).2.2
    (by decide) (by decide) (by decide)
  exact ⟨by decide, by decide, by rw [hweb.1], hweb.2, by rw [hv.1], hv.2, hbad⟩
